import Mathlib

/-!
Shallow embedding of the Qustodio API client, `src/qustodio/qustodioapi.py`.

JSON values are modelled by the inductive `Json`; an object is an association
list with distinct keys (the shape `json.loads` produces).  Python `datetime`
instants and `timedelta` second counts are idealized as exact rationals, and
`datetime.now()` is modelled as a single instant `now` per call.  Network and
I/O effects are replaced by an explicit environment: each HTTP request is an
oracle value of type `Fetch`, either a raised transport/timeout exception or a
response with a status code and a body-parse outcome.  Fallible Python
evaluation (KeyError, TypeError, AttributeError, unhashable keys, ...) is
modelled by `Except Unit`.
-/

inductive Json where
  | null
  | bool (b : Bool)
  | num (q : ℚ)
  | str (s : String)
  | arr (elems : List Json)
  | obj (fields : List (String × Json))

/-- A Python dict key: only hashable values can be keys, and a `bool` key
compares and hashes equal to its integer value, so keys normalize to
`None`, a number, or a string. -/
inductive Key where
  | null
  | num (q : ℚ)
  | str (s : String)
  deriving DecidableEq

/-- Using a JSON value as a dict key or in a dict membership test: lists and
dicts are unhashable and raise `TypeError`; `True`/`False` are the keys
`1`/`0`. -/
def Json.toKey : Json → Except Unit Key
  | .null => .ok .null
  | .bool b => .ok (.num (if b then 1 else 0))
  | .num q => .ok (.num q)
  | .str s => .ok (.str s)
  | .arr _ => .error ()
  | .obj _ => .error ()

/-- Lookup in a Python dict modelled as an association list. -/
def alookup : List (String × Json) → String → Option Json
  | [], _ => none
  | (k, v) :: rest, key => if k = key then some v else alookup rest key

/-- Lookup in a Python dict with normalized (hashable) keys. -/
def dlookup : List (Key × Json) → Key → Option Json
  | [], _ => none
  | (k, v) :: rest, key => if k = key then some v else dlookup rest key

/-- Python dict assignment `m[k] = v`: update in place if the key exists,
otherwise append (insertion order is preserved). -/
def pyInsert (m : List (Key × α)) (k : Key) (v : α) : List (Key × α) :=
  match m with
  | [] => [(k, v)]
  | (k0, v0) :: rest => if k0 = k then (k0, v) :: rest else (k0, v0) :: pyInsert rest k v

/-- Python truthiness of a JSON value. -/
def truthy : Json → Bool
  | .null => false
  | .bool b => b
  | .num q => q ≠ 0
  | .str s => !s.isEmpty
  | .arr l => !l.isEmpty
  | .obj l => !l.isEmpty

/-- Values accepted where Python needs a number (`timedelta(seconds=...)`,
`int + ...`): ints/floats, and `bool` which is an `int` subclass; anything
else raises `TypeError`. -/
def toNum : Json → Except Unit ℚ
  | .num q => .ok q
  | .bool b => .ok (if b then 1 else 0)
  | _ => .error ()

/-- Python iteration `for x in j`: lists yield their elements, strings yield
one-character strings, dicts yield their keys; numbers, booleans and `None`
raise `TypeError`. -/
def iterElems : Json → Except Unit (List Json)
  | .arr l => .ok l
  | .str s => .ok (s.data.map fun c => .str (String.mk [c]))
  | .obj l => .ok (l.map fun kv => .str kv.1)
  | _ => .error ()

/-- `j.fields` when `j` is a dict; any `.get`/`[]` access on a non-dict
raises (`TypeError`/`AttributeError`). -/
def objFields : Json → Except Unit (List (String × Json))
  | .obj l => .ok l
  | _ => .error ()

/-- Python's `round` at one decimal, idealized on exact rationals:
round half to even to the nearest multiple of 1/10. -/
def roundHalfEven (q : ℚ) : ℤ :=
  let f := q.floor
  let r := q - f
  if r < 1 / 2 then f
  else if 1 / 2 < r then f + 1
  else if f % 2 = 0 then f else f + 1

def round1 (q : ℚ) : ℚ := (roundHalfEven (q * 10) : ℚ) / 10

/-- Outcome of one HTTP request: a raised timeout/transport/other exception,
or a response with its status code and the result of parsing its body as
JSON (`.error` when `response.json()` would raise). -/
inductive Fetch where
  | exn
  | resp (status : ℕ) (body : Except Unit Json)

/-- Modelled from the spec: `const.py` is not under `src/`; it supplies the
three distinct login result codes `LOGIN_RESULT_OK`,
`LOGIN_RESULT_UNAUTHORIZED`, `LOGIN_RESULT_ERROR`. -/
inductive LoginResult where
  | ok
  | unauthorized
  | error
  deriving DecidableEq

/-- Mutable state of a `QustodioApi` instance: `_access_token`, `_expires_in`,
`_account_id`, `_account_uid`, and whether `_session` holds a session object. -/
structure ClientState where
  access_token : Option Json
  expires_in : Option ℚ
  account_id : Option Json
  account_uid : Option Json
  session : Bool

/-- The fresh state produced by `QustodioApi.__init__`. -/
def initState : ClientState :=
  { access_token := none, expires_in := none, account_id := none,
    account_uid := none, session := false }

/-- The cached-token fast path guard of `login`:
`self._access_token is not None and self._expires_in is not None and
self._expires_in > datetime.now()`. -/
def fastPath (st : ClientState) (now : ℚ) : Bool :=
  st.access_token.isSome &&
    (match st.expires_in with
     | some e => decide (now < e)
     | none => false)

/-- `timedelta(seconds=response_data.get("expires_in", 3600))`: the default is
3600; a non-numeric `expires_in` value makes `timedelta` raise `TypeError`. -/
def lifetime (fields : List (String × Json)) : Except Unit ℚ :=
  match alookup fields "expires_in" with
  | none => .ok 3600
  | some v => toNum v

/-- `QustodioApi.login`.  `out` is the outcome of the authentication request
(consulted only when the fast path is not taken).  Returns the new client
state, the result code, and whether a network request was performed.

When the 200 body is not a dict, Python ends in `ERROR` without mutating the
state: `in` raises on numbers/bools/`None`; on strings and lists either the
membership test is false or the subsequent `response_data["access_token"]`
indexing raises; every raise is caught and mapped to `ERROR`.

When the body is a dict holding `"access_token"`, `self._access_token` is
assigned first; if building the expiry then raises (non-numeric
`expires_in`), the exception is caught and `ERROR` is returned with the token
already mutated and the expiry unchanged. -/
def login (st : ClientState) (now : ℚ) (out : Fetch) :
    ClientState × LoginResult × Bool :=
  if fastPath st now then (st, .ok, false)
  else
    match out with
    | .exn => (st, .error, true)
    | .resp status body =>
      if status = 401 then (st, .unauthorized, true)
      else if status ≠ 200 then (st, .error, true)
      else
        match body with
        | .error _ => (st, .error, true)
        | .ok j =>
          match j with
          | .obj fields =>
            match alookup fields "access_token" with
            | none => (st, .error, true)
            | some tok =>
              let st1 := { st with access_token := some tok }
              match lifetime fields with
              | .error _ => (st1, .error, true)
              | .ok secs =>
                ({ st1 with expires_in := some (now + secs) }, .ok, true)
          | _ => (st, .error, true)

/-- `days = ["mon", "tue", "wed", "thu", "fri", "sat", "sun"]`. -/
def days : List String := ["mon", "tue", "wed", "thu", "fri", "sat", "sun"]

/-- `days[datetime.today().weekday()]`: weekday 0 is Monday, 6 is Sunday. -/
def dayCode (d : Fin 7) : String := days.getD d.val ""

/-- Environment of one `get_data` call: the outcome of each HTTP request the
call may issue, and today's weekday.  `rules` is keyed by the profile id used
in the rules URL; `hourly` by the profile uid used in the hourly-summary URL. -/
structure Env where
  loginOut : Fetch
  account : Fetch
  devices : Fetch
  profiles : Fetch
  rules : Json → Fetch
  hourly : Json → Fetch
  dow : Fin 7

/-- `{device["id"]: device for device in devices_data}` from a parsed body.
Any raise while building the comprehension (non-iterable body, non-dict
element, missing `"id"`, unhashable id) leaves `devices = {}` because the
assignment never happens. -/
def devicesFrom (j : Json) : Except Unit (List (Key × Json)) := do
  let elems ← iterElems j
  elems.foldlM
    (fun m d => do
      let df ← objFields d
      match alookup df "id" with
      | none => Except.error ()
      | some i => do
        let k ← i.toKey
        pure (pyInsert m k d))
    []

/-- The device-map block of `get_data` (its own try/except): any failure,
non-200 status, body-parse failure or raise during the comprehension yields
the empty device map and the call continues. -/
def buildDevices : Fetch → List (Key × Json)
  | .exn => []
  | .resp s body =>
    if s = 200 then
      match body with
      | .error _ => []
      | .ok j =>
        match devicesFrom j with
        | .ok m => m
        | .error _ => []
    else []

/-- One step of the unauthorized-removal loop (not protected by a try/except):
`device_id in devices` raises on unhashable ids; for a hit,
`device.get("alerts", {})` raises when the device or its alerts value is not
a dict; a truthy `unauthorized_remove` alert overwrites the accumulator with
`(True, device.get("name", "Unknown"))`. -/
def tamperStep (devices : List (Key × Json)) (acc : Bool × Option Json)
    (did : Json) : Except Unit (Bool × Option Json) := do
  let k ← did.toKey
  match dlookup devices k with
  | none => pure acc
  | some dev =>
    match dev with
    | .obj df =>
      match (alookup df "alerts").getD (.obj []) with
      | .obj af =>
        if truthy ((alookup af "unauthorized_remove").getD (.bool false)) then
          pure (true, some ((alookup df "name").getD (.str "Unknown")))
        else pure acc
      | _ => Except.error ()
    | _ => Except.error ()

def foldTamper (devices : List (Key × Json)) :
    List Json → (Bool × Option Json) → Except Unit (Bool × Option Json)
  | [], acc => .ok acc
  | d :: rest, acc => do foldTamper devices rest (← tamperStep devices acc d)

/-- The fields of one profile snapshot that are computed before the rules and
hourly-summary fetches; in the source all evaluation that can raise outside
the two inner try/except blocks happens while computing these. -/
structure ProfileCore where
  id : Json
  uid : Json
  name : Json
  is_online : Json
  unauthorized_remove : Bool
  device_tampered : Option Json
  current_device : Json
  latitude : Json
  longitude : Json
  accuracy : Json
  lastseen : Json

/-- Lines 162–196 of `get_data` for one entry of the profiles response:
every raise here propagates to the outer `except` and ends the whole loop. -/
def profileCore (devices : List (Key × Json)) (p : Json) :
    Except Unit ProfileCore := do
  let pf ← objFields p
  let name ←
    match alookup pf "name" with
    | some v => Except.ok v
    | none => Except.error ()
  let id ←
    match alookup pf "id" with
    | some v => Except.ok v
    | none => Except.error ()
  let uid := (alookup pf "uid").getD id
  let sf ← objFields ((alookup pf "status").getD (.obj []))
  let is_online := (alookup sf "is_online").getD (.bool false)
  let elems ← iterElems ((alookup pf "device_ids").getD (.arr []))
  let tamper ← foldTamper devices elems (false, none)
  let lf ← objFields ((alookup sf "location").getD (.obj []))
  let device_id := (alookup lf "device").getD .null
  let current_device ←
    if truthy is_online && truthy device_id then do
      let kd ← device_id.toKey
      match dlookup devices kd with
      | some dev => do
        let df ← objFields dev
        pure ((alookup df "name").getD .null)
      | none => pure Json.null
    else pure Json.null
  pure
    { id, uid, name, is_online,
      unauthorized_remove := tamper.1,
      device_tampered := tamper.2,
      current_device,
      latitude := (alookup lf "latitude").getD .null,
      longitude := (alookup lf "longitude").getD .null,
      accuracy := (alookup lf "accuracy").getD (.num 0),
      lastseen := (alookup sf "lastseen").getD .null }

/-- `rules_data.get("time_restrictions", {}).get("quotas", {}).get(dow, 0)`
on a parsed rules body; raises when one of the intermediate values is not a
dict (the raise is caught by the surrounding try/except). -/
def quotaOf (j : Json) (dow : String) : Except Unit Json := do
  let rf ← objFields j
  let tf ← objFields ((alookup rf "time_restrictions").getD (.obj []))
  let qf ← objFields ((alookup tf "quotas").getD (.obj []))
  pure ((alookup qf dow).getD (.num 0))

/-- The rules block of `get_data`: `profile_data["quota"] = 0` first, then a
try/except around the fetch; any raise, non-200 status or parse failure
leaves the quota at 0. -/
def fetchQuota (f : Fetch) (dow : String) : Json :=
  match f with
  | .exn => .num 0
  | .resp s body =>
    if s = 200 then
      match body with
      | .error _ => .num 0
      | .ok j =>
        match quotaOf j dow with
        | .ok q => q
        | .error _ => .num 0
    else .num 0

/-- One step of `sum(entry.get("screen_time_seconds", 0) for entry in
hourly_data)`: raises when the entry is not a dict or a present value is not
a number. -/
def sumStep (acc : ℚ) (e : Json) : Except Unit ℚ := do
  let ef ← objFields e
  let v ← toNum ((alookup ef "screen_time_seconds").getD (.num 0))
  pure (acc + v)

/-- `sum(entry.get("screen_time_seconds", 0) for entry in hourly_data)`:
raises when the body is not iterable, an entry is not a dict, or a present
value is not a number (the raise is caught by the surrounding try/except). -/
def sumScreenTime (j : Json) : Except Unit ℚ := do
  let elems ← iterElems j
  elems.foldlM sumStep 0

/-- The screen-time block of `get_data`: `profile_data["time"] = 0` first,
then a try/except around the fetch; on success
`round(total_time / 60, 1)`, otherwise the time stays 0. -/
def fetchTime (f : Fetch) : ℚ :=
  match f with
  | .exn => 0
  | .resp s body =>
    if s = 200 then
      match body with
      | .error _ => 0
      | .ok j =>
        match sumScreenTime j with
        | .ok t => round1 (t / 60)
        | .error _ => 0
    else 0

/-- One completed profile snapshot (`profile_data`). -/
structure ProfileData where
  id : Json
  uid : Json
  name : Json
  is_online : Json
  unauthorized_remove : Bool
  device_tampered : Option Json
  current_device : Json
  latitude : Json
  longitude : Json
  accuracy : Json
  lastseen : Json
  quota : Json
  time : ℚ

/-- Attach the quota and screen-time fields (both blocks are total: their
try/except converts every failure into the default). -/
def finishProfile (c : ProfileCore) (rulesF hourlyF : Json → Fetch)
    (dow : String) : ProfileData :=
  { id := c.id, uid := c.uid, name := c.name, is_online := c.is_online,
    unauthorized_remove := c.unauthorized_remove,
    device_tampered := c.device_tampered,
    current_device := c.current_device,
    latitude := c.latitude, longitude := c.longitude,
    accuracy := c.accuracy, lastseen := c.lastseen,
    quota := fetchQuota (rulesF c.id) dow,
    time := fetchTime (hourlyF c.uid) }

/-- One iteration of the profile loop up to the assembled snapshot. -/
def processProfile (devices : List (Key × Json)) (rulesF hourlyF : Json → Fetch)
    (dow : String) (p : Json) : Except Unit (Json × ProfileData) :=
  match profileCore devices p with
  | .error e => .error e
  | .ok c => .ok (c.id, finishProfile c rulesF hourlyF dow)

/-- The profile loop.  A raise while processing a profile — including
`data[profile_data["id"]] = profile_data` itself raising on an unhashable
id — propagates to the outer `except`, which falls through to
`return data`: the mapping accumulated so far is returned. -/
def runLoop (devices : List (Key × Json)) (rulesF hourlyF : Json → Fetch)
    (dow : String) : List (Key × ProfileData) → List Json →
    List (Key × ProfileData)
  | acc, [] => acc
  | acc, p :: rest =>
    match processProfile devices rulesF hourlyF dow p with
    | .error _ => acc
    | .ok (kj, pd) =>
      match kj.toKey with
      | .error _ => acc
      | .ok k => runLoop devices rulesF hourlyF dow (pyInsert acc k pd) rest

/-- The profiles request and loop, given the state after the account fetch. -/
def profilesStep (st2 : ClientState) (env : Env) :
    ClientState × List (Key × ProfileData) :=
  match env.profiles with
  | .exn => (st2, [])
  | .resp ps pb =>
    if ps = 200 then
      match pb with
      | .error _ => (st2, [])
      | .ok pj =>
        match iterElems pj with
        | .error _ => (st2, [])
        | .ok plist =>
          (st2, runLoop (buildDevices env.devices) env.rules env.hourly
            (dayCode env.dow) [] plist)
    else (st2, [])

/-- The account fetch of `get_data`: on a non-200 status `return data` (still
empty); on a parse failure or a body without `"id"` the raise reaches the
outer `except`; on success `_account_id`/`_account_uid` are assigned and the
call proceeds (the device fetch is modelled inside `profilesStep`; it is
pure in the environment, so its position does not affect the result). -/
def getDataCore (st1 : ClientState) (env : Env) :
    ClientState × List (Key × ProfileData) :=
  match env.account with
  | .exn => (st1, [])
  | .resp s ab =>
    if s = 200 then
      match ab with
      | .error _ => (st1, [])
      | .ok aj =>
        match aj with
        | .obj af =>
          match alookup af "id" with
          | none => (st1, [])
          | some aid =>
            profilesStep
              { st1 with account_id := some aid,
                         account_uid := some ((alookup af "uid").getD aid) }
              env
        | _ => (st1, [])
    else (st1, [])

/-- `QustodioApi.get_data`.  `self._session` is assigned on entry and reset
to `None` by the `finally` clause on every exit path; a non-`OK` login result
returns the still-empty mapping. -/
def get_data (st : ClientState) (now : ℚ) (env : Env) :
    ClientState × List (Key × ProfileData) :=
  let lr := login { st with session := true } now env.loginOut
  let r :=
    if lr.2.1 = LoginResult.ok then getDataCore lr.1 env
    else (lr.1, [])
  ({ r.1 with session := false }, r.2)

/-- The 200 body that exhibits the `expires_in` corner: it carries the
access-token field, but its `expires_in` value is a string, so
`timedelta(seconds=...)` raises after the token was already cached. -/
def cex3Body : Json := .obj [("access_token", .str "t"), ("expires_in", .str "soon")]

/-- The 200 body for the C5 corner: token present, `expires_in` is `None`,
so `timedelta(seconds=None)` raises after the token assignment. -/
def cex5Body : Json := .obj [("access_token", .str "t2"), ("expires_in", .null)]

/-- The environment of a fully successful `get_data` call against an account
with id 1 and an empty profile list. -/
def cex8Env : Env :=
  { loginOut := .resp 200 (.ok (.obj [("access_token", .str "t")]))
    account := .resp 200 (.ok (.obj [("id", .num 1)]))
    devices := .exn
    profiles := .resp 200 (.ok (.arr []))
    rules := fun _ => .exn
    hourly := fun _ => .exn
    dow := 0 }

/-- The identifier a profiles-response entry carries (`profile["id"]`),
`null` when absent. -/
def pid (p : Json) : Json :=
  match p with
  | .obj pf => (alookup pf "id").getD .null
  | _ => .null

/-- The dict key under which a profile's snapshot is stored. -/
def pkey (p : Json) : Key :=
  match (pid p).toKey with
  | .ok k => k
  | .error _ => .null

/-- Two processable profiles, devices fetch raising, rules fetch raising,
hourly summary returning 500. -/
def w1Env : Env :=
  { loginOut := .resp 200 (.ok (.obj [("access_token", .str "t")]))
    account := .resp 200 (.ok (.obj [("id", .num 1)]))
    devices := .exn
    profiles := .resp 200 (.ok (.arr
      [.obj [("id", .num 10), ("name", .str "A")],
       .obj [("id", .num 11), ("name", .str "B")]]))
    rules := fun _ => .exn
    hourly := fun _ => .resp 500 (.error ())
    dow := 2 }

/-- One processable profile followed by a malformed entry (its `name` field
is missing, so `profile["name"]` raises `KeyError` mid-loop). -/
def w10Env : Env :=
  { loginOut := .resp 200 (.ok (.obj [("access_token", .str "t")]))
    account := .resp 200 (.ok (.obj [("id", .num 1)]))
    devices := .exn
    profiles := .resp 200 (.ok (.arr
      [.obj [("id", .num 10), ("name", .str "A")],
       .obj [("id", .num 99)]]))
    rules := fun _ => .exn
    hourly := fun _ => .exn
    dow := 0 }

/-- One processable profile; the rules response carries a quota of 45
minutes under "wed", and the call happens on a Wednesday (weekday 2). -/
def w6Env : Env :=
  { loginOut := .resp 200 (.ok (.obj [("access_token", .str "t")]))
    account := .resp 200 (.ok (.obj [("id", .num 1)]))
    devices := .exn
    profiles := .resp 200 (.ok (.arr [.obj [("id", .num 20), ("name", .str "C")]]))
    rules := fun _ => .resp 200 (.ok (.obj [("time_restrictions",
      .obj [("quotas", .obj [("wed", .num 45)])])]))
    hourly := fun _ => .exn
    dow := 2 }

/-- The snapshot `get_data` builds for the profile of `w6Env`. -/
def w6Pd : ProfileData :=
  { id := .num 20, uid := .num 20, name := .str "C", is_online := .bool false,
    unauthorized_remove := false, device_tampered := none,
    current_device := .null, latitude := .null, longitude := .null,
    accuracy := .num 0, lastseen := .null, quota := .num 45, time := 0 }

/-- One processable profile with an hourly summary of three entries: 90
seconds, an entry with the field missing (counts 0), and 30 seconds. -/
def w7Env : Env :=
  { loginOut := .resp 200 (.ok (.obj [("access_token", .str "t")]))
    account := .resp 200 (.ok (.obj [("id", .num 1)]))
    devices := .exn
    profiles := .resp 200 (.ok (.arr [.obj [("id", .num 30), ("name", .str "D")]]))
    rules := fun _ => .exn
    hourly := fun _ => .resp 200 (.ok (.arr
      [.obj [("screen_time_seconds", .num 90)],
       .obj [],
       .obj [("screen_time_seconds", .num 30)]]))
    dow := 0 }

/-- The snapshot `get_data` builds for the profile of `w7Env`: 120 seconds
of screen time, i.e. `round1 (120 / 60)` minutes. -/
def w7Pd : ProfileData :=
  { id := .num 30, uid := .num 30, name := .str "D", is_online := .bool false,
    unauthorized_remove := false, device_tampered := none,
    current_device := .null, latitude := .null, longitude := .null,
    accuracy := .num 0, lastseen := .null, quota := .num 0,
    time := round1 ((0 + 90 + 0 + 30) / 60) }

/-- A successful devices fetch whose device 1 carries a non-dict `alerts`
value, referenced by a perfectly well-formed profile. -/
def c1Env : Env :=
  { loginOut := .resp 200 (.ok (.obj [("access_token", .str "t")]))
    account := .resp 200 (.ok (.obj [("id", .num 1)]))
    devices := .resp 200 (.ok (.arr
      [.obj [("id", .num 1), ("alerts", .str "bad")]]))
    profiles := .resp 200 (.ok (.arr
      [.obj [("id", .num 10), ("name", .str "A"),
             ("device_ids", .arr [.num 1])]]))
    rules := fun _ => .exn
    hourly := fun _ => .exn
    dow := 0 }

/-! ### Helper lemmas about `login` -/

theorem login_account_fields (st : ClientState) (now : ℚ) (out : Fetch) :
    (login st now out).1.account_id = st.account_id
      ∧ (login st now out).1.account_uid = st.account_uid
      ∧ (login st now out).1.session = st.session := by
  unfold login
  by_cases hf : fastPath st now
  · simp [hf]
  · simp only [hf, if_false, Bool.false_eq_true]
    cases out with
    | exn => simp
    | resp status body =>
      by_cases h4 : status = 401
      · simp [h4]
      · by_cases h2 : status = 200
        · subst h2
          simp only [h4, if_false]
          cases body with
          | error e => simp
          | ok j =>
            cases j with
            | obj fields =>
              cases halookup : alookup fields "access_token" with
              | none => simp [halookup]
              | some tok =>
                cases hl : lifetime fields with
                | error e => simp [halookup, hl]
                | ok secs => simp [halookup, hl]
            | null => simp
            | bool b => simp
            | num q => simp
            | str s => simp
            | arr l => simp
        · simp [h4, h2]

/-- `login` taken apart on the slow path: the five possible shapes. -/
theorem login_cases (st : ClientState) (now : ℚ) (out : Fetch)
    (hfp : fastPath st now = false) :
    (∃ status body, out = Fetch.resp status body
        ∧ status ≠ 401 ∧ status = 200
        ∧ ∃ fields tok secs, body = Except.ok (Json.obj fields)
            ∧ alookup fields "access_token" = some tok
            ∧ lifetime fields = Except.ok secs
            ∧ login st now out =
                ({ st with access_token := some tok,
                           expires_in := some (now + secs) },
                  LoginResult.ok, true))
    ∨ (∃ body, out = Fetch.resp 401 body
        ∧ login st now out = (st, LoginResult.unauthorized, true))
    ∨ ((login st now out).2.1 = LoginResult.error) := by
  unfold login
  rw [hfp]
  simp only [Bool.false_eq_true, if_false]
  cases out with
  | exn => right; right; rfl
  | resp status body =>
    by_cases h4 : status = 401
    · subst h4
      right; left
      exact ⟨body, rfl, by simp⟩
    · by_cases h2 : status = 200
      · subst h2
        simp only [h4, if_false]
        cases body with
        | error e => right; right; simp
        | ok j =>
          cases j with
          | obj fields =>
            cases halookup : alookup fields "access_token" with
            | none => right; right; simp [halookup]
            | some tok =>
              cases hl : lifetime fields with
              | error e => right; right; simp [halookup, hl]
              | ok secs =>
                left
                exact ⟨200, Except.ok (Json.obj fields), rfl, h4, rfl,
                  fields, tok, secs, rfl, halookup, hl, by simp [halookup, hl]⟩
          | null => right; right; simp
          | bool b => right; right; simp
          | num q => right; right; simp
          | str s => right; right; simp
          | arr l => right; right; simp
      · right; right; simp [h4, h2]

theorem login_unauth_iff (st : ClientState) (now : ℚ) (out : Fetch)
    (hfp : fastPath st now = false) :
    (login st now out).2.1 = LoginResult.unauthorized ↔
      ∃ b, out = Fetch.resp 401 b := by
  unfold login
  rw [hfp]
  simp only [Bool.false_eq_true, if_false]
  cases out with
  | exn => simp
  | resp status body =>
    by_cases h4 : status = 401
    · subst h4; simp
    · by_cases h2 : status = 200
      · subst h2
        simp only [h4, if_false]
        cases body with
        | error e => simp [h4]
        | ok j =>
          cases j with
          | obj fields =>
            cases halookup : alookup fields "access_token" with
            | none => simp [h4, halookup]
            | some tok =>
              cases hl : lifetime fields with
              | error e => simp [h4, halookup, hl]
              | ok secs => simp [h4, halookup, hl]
          | null => simp [h4]
          | bool b => simp [h4]
          | num q => simp [h4]
          | str s => simp [h4]
          | arr l => simp [h4]
      · simp [h4, h2]

theorem login_ok_iff (st : ClientState) (now : ℚ) (out : Fetch)
    (hfp : fastPath st now = false) :
    (login st now out).2.1 = LoginResult.ok ↔
      ∃ fields tok secs, out = Fetch.resp 200 (Except.ok (Json.obj fields))
        ∧ alookup fields "access_token" = some tok
        ∧ lifetime fields = Except.ok secs := by
  unfold login
  rw [hfp]
  simp only [Bool.false_eq_true, if_false]
  cases out with
  | exn => simp
  | resp status body =>
    by_cases h4 : status = 401
    · subst h4; simp
    · by_cases h2 : status = 200
      · subst h2
        simp only [h4, if_false]
        cases body with
        | error e => simp
        | ok j =>
          cases j with
          | obj fields =>
            cases halookup : alookup fields "access_token" with
            | none => simp [halookup]
            | some tok =>
              cases hl : lifetime fields with
              | error e => simp [halookup, hl]
              | ok secs => simp [halookup, hl]
          | null => simp
          | bool b => simp
          | num q => simp
          | str s => simp
          | arr l => simp
      · simp [h4, h2]

/-- C4: if a cached access token exists and its cached expiry is strictly
later than the current time, `login` returns `OK`, performs no network
request, and leaves the whole client state (token and expiry included)
unchanged. -/
theorem login_cached_fast_path (st : ClientState) (now e : ℚ) (out : Fetch)
    (h1 : st.access_token.isSome = true) (h2 : st.expires_in = some e)
    (h3 : now < e) :
    login st now out = (st, LoginResult.ok, false) := by
  unfold login
  have hf : fastPath st now = true := by
    simp [fastPath, h1, h2, h3]
  simp [hf]

theorem login_cached_fast_path_witness :
    login { initState with access_token := some (.str "t"),
                           expires_in := some 100 } 0 Fetch.exn
      = ({ initState with access_token := some (.str "t"),
                          expires_in := some 100 }, LoginResult.ok, false) :=
  login_cached_fast_path _ 0 100 Fetch.exn rfl rfl (by norm_num)

/-- C3 counterexample: a 200 response whose (parsed, dict) body contains the
access-token field, yet `login` returns `ERROR`, not `OK` — the claim's
"`OK` otherwise" is false for this input, because the non-numeric
`expires_in` makes the expiry computation raise. -/
theorem login_error_despite_token :
    fastPath initState 0 = false
    ∧ (∃ fields, cex3Body = Json.obj fields
        ∧ alookup fields "access_token" = some (.str "t"))
    ∧ (login initState 0 (Fetch.resp 200 (Except.ok cex3Body))).2.1
        = LoginResult.error :=
  ⟨rfl, ⟨[("access_token", .str "t"), ("expires_in", .str "soon")], rfl, rfl⟩, rfl⟩

/-- C3 (amended): when the authentication request is performed, `login`
returns `UNAUTHORIZED` iff the response status is 401; it returns `OK` iff
the status is 200 and the body parses to a dict that contains the
access-token field and whose `expires_in` field (default 3600) is numeric so
that the expiry can be built; it returns `ERROR` in every other case
(non-200/non-401 status, timeout or transport failure, unparseable body,
body without the token field, or token present with a non-numeric
`expires_in`). -/
theorem login_result_classification (st : ClientState) (now : ℚ) (out : Fetch)
    (hfp : fastPath st now = false) :
    ((login st now out).2.1 = LoginResult.unauthorized ↔
        ∃ b, out = Fetch.resp 401 b)
    ∧ ((login st now out).2.1 = LoginResult.ok ↔
        ∃ fields tok secs, out = Fetch.resp 200 (Except.ok (Json.obj fields))
          ∧ alookup fields "access_token" = some tok
          ∧ lifetime fields = Except.ok secs)
    ∧ ((login st now out).2.1 = LoginResult.error ↔
        ¬((∃ b, out = Fetch.resp 401 b)
          ∨ ∃ fields tok secs, out = Fetch.resp 200 (Except.ok (Json.obj fields))
              ∧ alookup fields "access_token" = some tok
              ∧ lifetime fields = Except.ok secs)) := by
  have hu := login_unauth_iff st now out hfp
  have ho := login_ok_iff st now out hfp
  refine ⟨hu, ho, ?_⟩
  cases hr : (login st now out).2.1 with
  | ok =>
    rw [hr] at hu ho
    simp only [show LoginResult.ok ≠ LoginResult.error by simp]
    constructor
    · intro h; exact absurd h (by simp)
    · intro h; exact absurd (Or.inr (ho.mp rfl)) h
  | unauthorized =>
    rw [hr] at hu ho
    constructor
    · intro h; exact absurd h (by simp)
    · intro h; exact absurd (Or.inl (hu.mp rfl)) h
  | error =>
    rw [hr] at hu ho
    constructor
    · intro _ h
      rcases h with h | h
      · exact absurd (hu.mpr h) (by simp)
      · exact absurd (ho.mpr h) (by simp)
    · intro _; rfl

theorem login_result_classification_witness :
    (login initState 0 (Fetch.resp 401 (Except.error ()))).2.1
      = LoginResult.unauthorized :=
  ((login_result_classification initState 0 (Fetch.resp 401 (Except.error ()))
      rfl).1).mpr ⟨Except.error (), rfl⟩

/-- C5 counterexample: an execution of `login` that returns `ERROR` yet
mutates the cached access token (from unset to the received token), because
`self._access_token` is assigned before the expiry computation raises on the
non-numeric `expires_in`.  The claim "unchanged on ERROR" is false here. -/
theorem login_mutates_on_error :
    initState.access_token = none
    ∧ (login initState 0 (Fetch.resp 200 (Except.ok cex5Body))).2.1
        = LoginResult.error
    ∧ (login initState 0 (Fetch.resp 200 (Except.ok cex5Body))).1.access_token
        = some (.str "t2") :=
  ⟨rfl, rfl, rfl⟩

/-- C5 (amended): `login` never mutates the cached expiry except on `OK`;
on `UNAUTHORIZED` the state is fully unchanged; on `ERROR` the state is
unchanged except in one corner — a 200 dict body carrying the access-token
field whose `expires_in` is non-numeric, where the cached token (and only
it) is overwritten with the received token; on `OK` with a performed
request the new expiry is the current time plus the server-declared
lifetime, 3600 seconds when the `expires_in` field is absent; when no
request is performed the state is unchanged. -/
theorem login_mutation_frame (st : ClientState) (now : ℚ) (out : Fetch) :
    ((login st now out).2.1 = LoginResult.unauthorized →
        (login st now out).1 = st)
    ∧ ((login st now out).2.1 = LoginResult.error →
        (login st now out).1.expires_in = st.expires_in
        ∧ ((login st now out).1 = st
            ∨ ∃ fields tok, out = Fetch.resp 200 (Except.ok (Json.obj fields))
                ∧ alookup fields "access_token" = some tok
                ∧ (lifetime fields).isOk = false
                ∧ (login st now out).1 = { st with access_token := some tok }))
    ∧ ((login st now out).2.1 = LoginResult.ok → (login st now out).2.2 = true →
        ∃ fields tok secs, out = Fetch.resp 200 (Except.ok (Json.obj fields))
          ∧ alookup fields "access_token" = some tok
          ∧ lifetime fields = Except.ok secs
          ∧ (alookup fields "expires_in" = none → secs = 3600)
          ∧ (login st now out).1
              = { st with access_token := some tok,
                          expires_in := some (now + secs) })
    ∧ ((login st now out).2.2 = false → (login st now out).1 = st) := by
  by_cases hf : fastPath st now
  · simp [login, hf]
  · replace hf : fastPath st now = false := by simpa using hf
    unfold login
    rw [hf]
    simp only [Bool.false_eq_true, if_false]
    cases out with
    | exn => simp
    | resp status body =>
      by_cases h4 : status = 401
      · subst h4; simp
      · by_cases h2 : status = 200
        · subst h2
          simp only [h4, if_false]
          cases body with
          | error e => simp
          | ok j =>
            cases j with
            | obj fields =>
              cases halookup : alookup fields "access_token" with
              | none => simp [halookup]
              | some tok =>
                cases hl : lifetime fields with
                | error e =>
                  refine ⟨by simp [halookup, hl], ?_, by simp [halookup, hl],
                    by simp [halookup, hl]⟩
                  intro _
                  refine ⟨by simp [halookup, hl], Or.inr ?_⟩
                  exact ⟨fields, tok, rfl, halookup, by rw [hl]; rfl,
                    by simp [halookup, hl]⟩
                | ok secs =>
                  refine ⟨by simp [halookup, hl], by simp [halookup, hl], ?_,
                    by simp [halookup, hl]⟩
                  intro _ _
                  refine ⟨fields, tok, secs, rfl, halookup, hl, ?_,
                    by simp [halookup, hl]⟩
                  intro hnone
                  simp [lifetime, hnone] at hl
                  exact hl.symm
            | null => simp
            | bool b => simp
            | num q => simp
            | str s => simp
            | arr l => simp
        · simp [h4, h2]

theorem login_mutation_frame_witness :
    (login initState 0 Fetch.exn).1.expires_in = none :=
  ((login_mutation_frame initState 0 Fetch.exn).2.1 rfl).1

theorem profilesStep_fst (st2 : ClientState) (env : Env) :
    (profilesStep st2 env).1 = st2 := by
  unfold profilesStep
  cases env.profiles with
  | exn => rfl
  | resp ps pb =>
    by_cases hps : ps = 200
    · subst hps
      simp only [if_true]
      cases pb with
      | error e => rfl
      | ok pj =>
        cases hit : iterElems pj with
        | error e => simp [hit]
        | ok plist => simp [hit]
    · simp [hps]

/-- C2: whenever `login` comes back non-`OK`, or the account request returns
a non-200 status, or the profiles request returns a non-200 status,
`get_data` returns the empty mapping (the failures are converted to an early
`return data` / a caught exception; nothing propagates to the caller, which
the totality of `get_data` reflects). -/
theorem getData_empty_on_early_failure (st : ClientState) (now : ℚ) (env : Env)
    (h : (login { st with session := true } now env.loginOut).2.1 ≠ LoginResult.ok
      ∨ (∃ s b, env.account = Fetch.resp s b ∧ s ≠ 200)
      ∨ (∃ s b, env.profiles = Fetch.resp s b ∧ s ≠ 200)) :
    (get_data st now env).2 = [] := by
  rcases h with h | ⟨s, b, hacct, hs⟩ | ⟨s, b, hprof, hs⟩
  · simp [get_data, h]
  · by_cases hl : (login { st with session := true } now env.loginOut).2.1
        = LoginResult.ok
    · simp only [get_data, hl, if_true]
      unfold getDataCore
      rw [hacct]
      simp [hs]
    · simp [get_data, hl]
  · by_cases hl : (login { st with session := true } now env.loginOut).2.1
        = LoginResult.ok
    · simp only [get_data, hl, if_true]
      unfold getDataCore
      cases hacct : env.account with
      | exn => rfl
      | resp s2 b2 =>
        by_cases hs2 : s2 = 200
        · subst hs2
          simp only [if_true]
          cases b2 with
          | error e => rfl
          | ok aj =>
            cases aj with
            | obj af =>
              cases hid : alookup af "id" with
              | none => simp [hid]
              | some aid =>
                simp only [hid]
                unfold profilesStep
                rw [hprof]
                simp [hs]
            | null => rfl
            | bool b3 => rfl
            | num q => rfl
            | str s3 => rfl
            | arr l => rfl
        · simp [hs2]
    · simp [get_data, hl]

theorem getData_empty_on_early_failure_witness :
    (get_data initState 0
      { loginOut := Fetch.resp 200 (Except.ok (Json.obj [("access_token", Json.str "t")]))
        account := Fetch.resp 500 (Except.error ())
        devices := Fetch.exn
        profiles := Fetch.exn
        rules := fun _ => Fetch.exn
        hourly := fun _ => Fetch.exn
        dow := 0 }).2 = [] :=
  getData_empty_on_early_failure initState 0 _
    (Or.inr (Or.inl ⟨500, Except.error (), rfl, by decide⟩))

/-- C8 counterexample: after a `get_data` call completes (here: normally,
returning the empty mapping for an empty profile list), the cached account
identifier and UID are NOT reset to unset — the `finally` clause only resets
`self._session`; `_account_id`/`_account_uid` keep the values assigned
during the call. -/
theorem account_ids_persist_after_call :
    (get_data initState 0 cex8Env).1.account_id = some (.num 1)
    ∧ (get_data initState 0 cex8Env).1.account_uid = some (.num 1)
    ∧ (get_data initState 0 cex8Env).2 = [] :=
  ⟨rfl, rfl, rfl⟩

/-- C8 (amended): by the end of every `get_data` call — success or failure —
the session handle is reset to unset (the `finally` clause); the cached
account identifier and UID are not reset: they either keep their prior
values (when the account fetch did not complete) or retain the values
assigned from the account response for the rest of the client's life. -/
theorem session_reset_account_persistence (st : ClientState) (now : ℚ)
    (env : Env) :
    (get_data st now env).1.session = false
    ∧ ((get_data st now env).1.account_id = st.account_id
          ∧ (get_data st now env).1.account_uid = st.account_uid
        ∨ ∃ af aid, env.account = Fetch.resp 200 (Except.ok (Json.obj af))
            ∧ alookup af "id" = some aid
            ∧ (get_data st now env).1.account_id = some aid
            ∧ (get_data st now env).1.account_uid
                = some ((alookup af "uid").getD aid)) := by
  refine ⟨rfl, ?_⟩
  have hacc := login_account_fields { st with session := true } now env.loginOut
  by_cases hl : (login { st with session := true } now env.loginOut).2.1
      = LoginResult.ok
  · simp only [get_data, hl, if_true]
    unfold getDataCore
    cases hacct : env.account with
    | exn => exact Or.inl ⟨hacc.1, hacc.2.1⟩
    | resp s2 b2 =>
      by_cases hs2 : s2 = 200
      · subst hs2
        simp only [if_true]
        cases b2 with
        | error e => exact Or.inl ⟨hacc.1, hacc.2.1⟩
        | ok aj =>
          cases aj with
          | obj af =>
            cases hid : alookup af "id" with
            | none =>
              simp only [hid]
              exact Or.inl ⟨hacc.1, hacc.2.1⟩
            | some aid =>
              simp only [hid]
              refine Or.inr ⟨af, aid, rfl, hid, ?_, ?_⟩
              · rw [profilesStep_fst]
              · rw [profilesStep_fst]
          | null => exact Or.inl ⟨hacc.1, hacc.2.1⟩
          | bool b3 => exact Or.inl ⟨hacc.1, hacc.2.1⟩
          | num q => exact Or.inl ⟨hacc.1, hacc.2.1⟩
          | str s3 => exact Or.inl ⟨hacc.1, hacc.2.1⟩
          | arr l => exact Or.inl ⟨hacc.1, hacc.2.1⟩
      · simp only [hs2, if_false]
        exact Or.inl ⟨hacc.1, hacc.2.1⟩
  · simp only [get_data, hl, if_false]
    exact Or.inl ⟨hacc.1, hacc.2.1⟩

theorem pyInsert_append (m : List (Key × α)) (k : Key) (v : α)
    (h : k ∉ m.map Prod.fst) :
    pyInsert m k v = m ++ [(k, v)] := by
  induction m with
  | nil => rfl
  | cons kv rest ih =>
    obtain ⟨k0, v0⟩ := kv
    simp only [List.map_cons, List.mem_cons] at h
    push_neg at h
    simp only [pyInsert, if_neg (Ne.symm h.1), List.cons_append]
    rw [ih h.2]

theorem pyInsert_mem {m : List (Key × α)} {k : Key} {v : α} {x : Key × α}
    (h : x ∈ pyInsert m k v) : x ∈ m ∨ x = (k, v) := by
  induction m with
  | nil => simpa [pyInsert] using h
  | cons kv rest ih =>
    obtain ⟨k0, v0⟩ := kv
    by_cases he : k0 = k
    · subst he
      simp only [pyInsert, if_pos rfl] at h
      rcases List.mem_cons.mp h with h | h
      · right; exact h
      · left; exact List.mem_cons_of_mem _ h
    · simp only [pyInsert, if_neg he] at h
      rcases List.mem_cons.mp h with h | h
      · left; exact h ▸ List.mem_cons_self _ _
      · rcases ih h with h | h
        · left; exact List.mem_cons_of_mem _ h
        · right; exact h

theorem profileCore_inv (devices : List (Key × Json)) (p : Json)
    (c : ProfileCore) (h : profileCore devices p = Except.ok c) :
    ∃ pf elems,
      p = Json.obj pf
      ∧ alookup pf "id" = some c.id
      ∧ iterElems ((alookup pf "device_ids").getD (Json.arr [])) = Except.ok elems
      ∧ foldTamper devices elems (false, none)
          = Except.ok (c.unauthorized_remove, c.device_tampered) := by
  cases p with
  | obj pf =>
    refine ⟨pf, ?_⟩
    simp only [profileCore, Bind.bind, Except.bind, objFields, pure, Except.pure] at h
    repeat' split at h
    all_goals
      try (injection h with h
           subst h
           exact ⟨_, rfl, by assumption, by assumption, by assumption⟩)
    all_goals injection h
  | null => simp [profileCore, objFields, Bind.bind, Except.bind] at h
  | bool b => simp [profileCore, objFields, Bind.bind, Except.bind] at h
  | num q => simp [profileCore, objFields, Bind.bind, Except.bind] at h
  | str s => simp [profileCore, objFields, Bind.bind, Except.bind] at h
  | arr l => simp [profileCore, objFields, Bind.bind, Except.bind] at h

theorem processProfile_ok (devices : List (Key × Json)) (rf hf : Json → Fetch)
    (dow : String) (p : Json) (c : ProfileCore)
    (h : profileCore devices p = Except.ok c) :
    processProfile devices rf hf dow p
      = Except.ok (c.id, finishProfile c rf hf dow) := by
  simp only [processProfile, h]

theorem runLoop_keys (devices : List (Key × Json)) (rf hf : Json → Fetch)
    (dow : String) (l : List Json) :
    ∀ acc : List (Key × ProfileData),
      (∀ p ∈ l, (profileCore devices p).isOk = true) →
      (∀ p ∈ l, ((pid p).toKey).isOk = true) →
      (acc.map Prod.fst ++ l.map pkey).Nodup →
      (runLoop devices rf hf dow acc l).map Prod.fst
        = acc.map Prod.fst ++ l.map pkey := by
  induction l with
  | nil =>
    intro acc _ _ _
    simp [runLoop]
  | cons p rest ih =>
    intro acc hok hkey hnd
    have hokp := hok p (List.mem_cons_self _ _)
    cases hpc : profileCore devices p with
    | error e =>
      rw [hpc] at hokp
      simp [Except.isOk, Except.toBool] at hokp
    | ok c =>
      obtain ⟨pf, elems, hp, hid, -, -⟩ := profileCore_inv devices p c hpc
      have hcid : c.id = pid p := by
        rw [hp, pid, hid]
        rfl
      have hkp := hkey p (List.mem_cons_self _ _)
      have hkeyp : (pid p).toKey = Except.ok (pkey p) := by
        cases hk : (pid p).toKey with
        | error e =>
          rw [hk] at hkp
          simp [Except.isOk, Except.toBool] at hkp
        | ok k =>
          rw [pkey, hk]
      have hmem : pkey p ∉ acc.map Prod.fst := by
        rcases List.nodup_append.mp hnd with ⟨-, -, hdisj⟩
        intro hmem
        exact hdisj hmem (by simp)
      have hstep : runLoop devices rf hf dow acc (p :: rest)
          = runLoop devices rf hf dow
              (pyInsert acc (pkey p) (finishProfile c rf hf dow)) rest := by
        simp only [runLoop, processProfile_ok devices rf hf dow p c hpc,
          hcid, hkeyp]
      rw [hstep, pyInsert_append acc (pkey p) _ hmem]
      have hnd2 : ((acc ++ [(pkey p, finishProfile c rf hf dow)]).map Prod.fst
          ++ rest.map pkey).Nodup := by
        simpa [List.append_assoc] using hnd
      rw [ih _ (fun q hq => hok q (List.mem_cons_of_mem _ hq))
        (fun q hq => hkey q (List.mem_cons_of_mem _ hq)) hnd2]
      simp

theorem runLoop_mem (devices : List (Key × Json)) (rf hf : Json → Fetch)
    (dow : String) (l : List Json) :
    ∀ (acc : List (Key × ProfileData)) (x : Key × ProfileData),
      x ∈ runLoop devices rf hf dow acc l →
      x ∈ acc ∨ ∃ p ∈ l, ∃ c, profileCore devices p = Except.ok c
        ∧ ∃ k, Json.toKey c.id = Except.ok k
        ∧ x = (k, finishProfile c rf hf dow) := by
  induction l with
  | nil =>
    intro acc x hx
    left
    simpa [runLoop] using hx
  | cons p rest ih =>
    intro acc x hx
    cases hpc : profileCore devices p with
    | error e =>
      have hr : runLoop devices rf hf dow acc (p :: rest) = acc := by
        simp only [runLoop, processProfile, hpc]
      rw [hr] at hx
      exact Or.inl hx
    | ok c =>
      cases hk : Json.toKey c.id with
      | error e =>
        have hr : runLoop devices rf hf dow acc (p :: rest) = acc := by
          simp only [runLoop, processProfile_ok devices rf hf dow p c hpc, hk]
        rw [hr] at hx
        exact Or.inl hx
      | ok k =>
        have hr : runLoop devices rf hf dow acc (p :: rest)
            = runLoop devices rf hf dow
                (pyInsert acc k (finishProfile c rf hf dow)) rest := by
          simp only [runLoop, processProfile_ok devices rf hf dow p c hpc, hk]
        rw [hr] at hx
        rcases ih _ x hx with hx2 | ⟨p2, hp2, c2, hc2, k2, hk2, hx2⟩
        · rcases pyInsert_mem hx2 with h3 | h3
          · exact Or.inl h3
          · exact Or.inr ⟨p, List.mem_cons_self _ _, c, hpc, k, hk, h3⟩
        · exact Or.inr ⟨p2, List.mem_cons_of_mem _ hp2, c2, hc2, k2, hk2, hx2⟩

theorem runLoop_stop (devices : List (Key × Json)) (rf hf : Json → Fetch)
    (dow : String) (pbad : Json) (l2 : List Json)
    (hbad : (profileCore devices pbad).isOk = false) :
    ∀ (l1 : List Json) (acc : List (Key × ProfileData)),
      runLoop devices rf hf dow acc (l1 ++ pbad :: l2)
        = runLoop devices rf hf dow acc l1 := by
  have hbe : ∃ e, profileCore devices pbad = Except.error e := by
    cases hpc : profileCore devices pbad with
    | error e => exact ⟨e, rfl⟩
    | ok c =>
      rw [hpc] at hbad
      simp [Except.isOk, Except.toBool] at hbad
  obtain ⟨e, hbe⟩ := hbe
  intro l1
  induction l1 with
  | nil =>
    intro acc
    simp only [List.nil_append, runLoop, processProfile, hbe]
  | cons p rest ih =>
    intro acc
    simp only [List.cons_append, runLoop]
    cases hpc : processProfile devices rf hf dow p with
    | error e2 => simp only [hpc]
    | ok kv =>
      obtain ⟨kj, pd⟩ := kv
      simp only [hpc]
      cases hk : kj.toKey with
      | error e3 => simp only [hk]
      | ok k =>
        simp only [hk]
        exact ih _

theorem getData_success (st : ClientState) (now : ℚ) (env : Env)
    (af : List (String × Json)) (aid : Json) (plist : List Json)
    (h1 : (login { st with session := true } now env.loginOut).2.1
        = LoginResult.ok)
    (h2 : env.account = Fetch.resp 200 (Except.ok (Json.obj af)))
    (h3 : alookup af "id" = some aid)
    (h4 : env.profiles = Fetch.resp 200 (Except.ok (Json.arr plist))) :
    (get_data st now env).2
      = runLoop (buildDevices env.devices) env.rules env.hourly
          (dayCode env.dow) [] plist := by
  simp only [get_data, h1, if_true]
  unfold getDataCore
  rw [h2]
  simp only [if_true, h3]
  unfold profilesStep
  rw [h4]
  simp [iterElems]

theorem getData_mem (st : ClientState) (now : ℚ) (env : Env)
    (x : Key × ProfileData) (h : x ∈ (get_data st now env).2) :
    ∃ pj plist, env.profiles = Fetch.resp 200 (Except.ok pj)
      ∧ iterElems pj = Except.ok plist
      ∧ ∃ p ∈ plist, ∃ c, profileCore (buildDevices env.devices) p = Except.ok c
        ∧ ∃ k, Json.toKey c.id = Except.ok k
        ∧ x = (k, finishProfile c env.rules env.hourly (dayCode env.dow)) := by
  by_cases hl : (login { st with session := true } now env.loginOut).2.1
      = LoginResult.ok
  · simp only [get_data, hl, if_true] at h
    unfold getDataCore at h
    cases hacct : env.account with
    | exn => rw [hacct] at h; simp at h
    | resp s2 b2 =>
      rw [hacct] at h
      by_cases hs2 : s2 = 200
      · subst hs2
        simp only [if_true] at h
        cases b2 with
        | error e => simp at h
        | ok aj =>
          cases aj with
          | obj af =>
            cases hid : alookup af "id" with
            | none => simp [hid] at h
            | some aid =>
              simp only [hid] at h
              unfold profilesStep at h
              cases hprof : env.profiles with
              | exn => rw [hprof] at h; simp at h
              | resp ps pb =>
                rw [hprof] at h
                by_cases hps : ps = 200
                · subst hps
                  simp only [if_true] at h
                  cases pb with
                  | error e => simp at h
                  | ok pj =>
                    cases hit : iterElems pj with
                    | error e => simp [hit] at h
                    | ok plist =>
                      simp only [hit] at h
                      refine ⟨pj, plist, rfl, hit, ?_⟩
                      rcases runLoop_mem (buildDevices env.devices) env.rules
                        env.hourly (dayCode env.dow) plist [] x h with h2 | h2
                      · simp at h2
                      · exact h2
                · simp [hps] at h
          | null => simp at h
          | bool b3 => simp at h
          | num q => simp at h
          | str s3 => simp at h
          | arr l => simp at h
      · simp [hs2] at h
  · simp [get_data, hl] at h

/-- C1 counterexample: the devices fetch succeeds (status 200), the profiles
response holds one well-formed profile with a distinct identifier — yet
`get_data` returns the empty mapping, dropping the profile.  The profile's
`device_ids` references device 1, whose `alerts` value is the string "bad";
the tamper loop (lines 175-181, not inside any try/except) evaluates
`alerts.get("unauthorized_remove", False)` on that string, raising
`AttributeError`, which only the outer except catches.  So the original
claim's "regardless of whether the devices fetch succeeds or fails, no
profile present in the profiles response is ever dropped" is false. -/
theorem getData_drops_profile_on_malformed_device :
    c1Env.devices = Fetch.resp 200 (Except.ok (Json.arr
        [Json.obj [("id", Json.num 1), ("alerts", Json.str "bad")]]))
    ∧ c1Env.profiles = Fetch.resp 200 (Except.ok (Json.arr
        [Json.obj [("id", Json.num 10), ("name", Json.str "A"),
          ("device_ids", Json.arr [Json.num 1])]]))
    ∧ (login { initState with session := true } 0 c1Env.loginOut).2.1
        = LoginResult.ok
    ∧ c1Env.account = Fetch.resp 200 (Except.ok (Json.obj [("id", Json.num 1)]))
    ∧ (get_data initState 0 c1Env).2 = [] :=
  ⟨rfl, rfl, rfl, rfl, rfl⟩

/-- C1 (amended): for every profiles response fetched with status 200 whose
entries are processable against the fetched device map — profile objects
with distinct, hashable identifiers whose referenced device entries do not
make the unprotected tamper check raise (e.g. no successfully fetched device
with a non-dict `alerts` value) — the mapping returned by `get_data` has
exactly those identifiers as its keys, in order, for every outcome of the
per-profile rules and hourly-summary fetches; a failed devices fetch merely
yields the empty device map and never drops a profile. -/
theorem getData_keys_exact (st : ClientState) (now : ℚ) (env : Env)
    (af : List (String × Json)) (aid : Json) (plist : List Json)
    (h1 : (login { st with session := true } now env.loginOut).2.1
        = LoginResult.ok)
    (h2 : env.account = Fetch.resp 200 (Except.ok (Json.obj af)))
    (h3 : alookup af "id" = some aid)
    (h4 : env.profiles = Fetch.resp 200 (Except.ok (Json.arr plist)))
    (h5 : ∀ p ∈ plist, (profileCore (buildDevices env.devices) p).isOk = true)
    (h6 : ∀ p ∈ plist, ((pid p).toKey).isOk = true)
    (h7 : (plist.map pkey).Nodup) :
    (get_data st now env).2.map Prod.fst = plist.map pkey := by
  rw [getData_success st now env af aid plist h1 h2 h3 h4]
  simpa using runLoop_keys (buildDevices env.devices) env.rules env.hourly
    (dayCode env.dow) plist [] h5 h6 (by simpa using h7)

theorem getData_keys_exact_witness :
    (get_data initState 0 w1Env).2.map Prod.fst = [Key.num 10, Key.num 11] :=
  getData_keys_exact initState 0 w1Env [("id", .num 1)] (.num 1)
    [.obj [("id", .num 10), ("name", .str "A")],
     .obj [("id", .num 11), ("name", .str "B")]]
    rfl rfl rfl rfl (by decide) (by decide) (by decide)

/-- C10: when the per-profile loop raises partway through — here: a
malformed profile entry that is not processable — after a prefix of
processable profiles, `get_data` catches the exception and returns the
partial mapping holding exactly the profiles processed before the failure:
it neither raises nor falls back to an empty mapping. -/
theorem partial_on_loop_failure (st : ClientState) (now : ℚ) (env : Env)
    (af : List (String × Json)) (aid : Json) (l1 : List Json) (pbad : Json)
    (l2 : List Json)
    (h1 : (login { st with session := true } now env.loginOut).2.1
        = LoginResult.ok)
    (h2 : env.account = Fetch.resp 200 (Except.ok (Json.obj af)))
    (h3 : alookup af "id" = some aid)
    (h4 : env.profiles
        = Fetch.resp 200 (Except.ok (Json.arr (l1 ++ pbad :: l2))))
    (h5 : ∀ p ∈ l1, (profileCore (buildDevices env.devices) p).isOk = true)
    (h6 : ∀ p ∈ l1, ((pid p).toKey).isOk = true)
    (h7 : (l1.map pkey).Nodup)
    (h8 : (profileCore (buildDevices env.devices) pbad).isOk = false)
    (h9 : l1 ≠ []) :
    (get_data st now env).2
        = runLoop (buildDevices env.devices) env.rules env.hourly
            (dayCode env.dow) [] l1
    ∧ (get_data st now env).2.map Prod.fst = l1.map pkey
    ∧ (get_data st now env).2 ≠ [] := by
  have hgd := getData_success st now env af aid (l1 ++ pbad :: l2) h1 h2 h3 h4
  rw [runLoop_stop (buildDevices env.devices) env.rules env.hourly
    (dayCode env.dow) pbad l2 h8 l1 []] at hgd
  have hkeys : (get_data st now env).2.map Prod.fst = l1.map pkey := by
    rw [hgd]
    simpa using runLoop_keys (buildDevices env.devices) env.rules env.hourly
      (dayCode env.dow) l1 [] h5 h6 (by simpa using h7)
  refine ⟨hgd, hkeys, ?_⟩
  intro hemp
  rw [hemp] at hkeys
  simp only [List.map_nil] at hkeys
  exact h9 (List.map_eq_nil_iff.mp hkeys.symm)

theorem partial_on_loop_failure_witness :
    (get_data initState 0 w10Env).2.map Prod.fst = [Key.num 10]
    ∧ (get_data initState 0 w10Env).2 ≠ [] :=
  ⟨(partial_on_loop_failure initState 0 w10Env [("id", .num 1)] (.num 1)
      [.obj [("id", .num 10), ("name", .str "A")]] (.obj [("id", .num 99)]) []
      rfl rfl rfl rfl (by decide) (by decide) (by decide) (by decide)
      (List.cons_ne_nil _ _)).2.1,
   (partial_on_loop_failure initState 0 w10Env [("id", .num 1)] (.num 1)
      [.obj [("id", .num 10), ("name", .str "A")]] (.obj [("id", .num 99)]) []
      rfl rfl rfl rfl (by decide) (by decide) (by decide) (by decide)
      (List.cons_ne_nil _ _)).2.2⟩

theorem sumFold_ok (f : Json → ℚ) (entries : List Json)
    (hall : ∀ e ∈ entries, ∃ ef, e = Json.obj ef
      ∧ toNum ((alookup ef "screen_time_seconds").getD (Json.num 0))
          = Except.ok (f e)) :
    ∀ acc : ℚ, entries.foldlM sumStep acc = Except.ok (acc + (entries.map f).sum) := by
  induction entries with
  | nil =>
    intro acc
    simp [List.foldlM, pure, Except.pure]
  | cons e rest ih =>
    intro acc
    obtain ⟨ef, he, hv⟩ := hall e (List.mem_cons_self _ _)
    have hstep : sumStep acc e = Except.ok (acc + f e) := by
      rw [he] at hv ⊢
      simp [sumStep, objFields, Bind.bind, Except.bind, hv, pure, Except.pure]
    rw [List.foldlM_cons, hstep]
    show rest.foldlM sumStep (acc + f e)
        = Except.ok (acc + (List.map f (e :: rest)).sum)
    rw [ih (fun q hq => hall q (List.mem_cons_of_mem _ hq)) (acc + f e)]
    simp [add_assoc]

/-- C6: for every profile snapshot in the mapping returned by `get_data`,
the quota field is the value stored under today's three-letter day code (the
`days` list indexed by the weekday, Monday = 0 ... Sunday = 6) inside
`time_restrictions.quotas` of that profile's rules response — the `getD`
default makes an absent day key yield 0 — and it is 0 when
`time_restrictions` or `quotas` is absent, when the rules fetch raises or
returns a non-200 status, or when its body fails to parse. -/
theorem quota_field_spec (st : ClientState) (now : ℚ) (env : Env)
    (k : Key) (pd : ProfileData) (h : (k, pd) ∈ (get_data st now env).2) :
    pd.quota = fetchQuota (env.rules pd.id) (dayCode env.dow)
    ∧ (env.rules pd.id = Fetch.exn → pd.quota = Json.num 0)
    ∧ (∀ s b, env.rules pd.id = Fetch.resp s b → s ≠ 200 → pd.quota = Json.num 0)
    ∧ (∀ s, env.rules pd.id = Fetch.resp s (Except.error ()) → pd.quota = Json.num 0)
    ∧ (∀ rf tf qf, env.rules pd.id = Fetch.resp 200 (Except.ok (Json.obj rf)) →
        alookup rf "time_restrictions" = some (Json.obj tf) →
        alookup tf "quotas" = some (Json.obj qf) →
        pd.quota = (alookup qf (dayCode env.dow)).getD (Json.num 0))
    ∧ (∀ rf, env.rules pd.id = Fetch.resp 200 (Except.ok (Json.obj rf)) →
        alookup rf "time_restrictions" = none → pd.quota = Json.num 0)
    ∧ (∀ rf tf, env.rules pd.id = Fetch.resp 200 (Except.ok (Json.obj rf)) →
        alookup rf "time_restrictions" = some (Json.obj tf) →
        alookup tf "quotas" = none → pd.quota = Json.num 0) := by
  obtain ⟨pj, plist, hpj, hit, p, hp, c, hc, kk, hkk, hx⟩ :=
    getData_mem st now env (k, pd) h
  have hpd : pd = finishProfile c env.rules env.hourly (dayCode env.dow) :=
    congrArg Prod.snd hx
  have hid : pd.id = c.id := by rw [hpd]; rfl
  have hq : pd.quota = fetchQuota (env.rules pd.id) (dayCode env.dow) := by
    rw [hid, hpd]
    rfl
  refine ⟨hq, ?_, ?_, ?_, ?_, ?_, ?_⟩
  · intro hr
    rw [hq, hr]
    rfl
  · intro s b hr hs
    rw [hq, hr]
    simp [fetchQuota, hs]
  · intro s hr
    rw [hq, hr]
    by_cases hs : s = 200
    · subst hs
      simp [fetchQuota]
    · simp [fetchQuota, hs]
  · intro rf tf qf hr htf hqf
    rw [hq, hr]
    simp [fetchQuota, quotaOf, Bind.bind, Except.bind, objFields, htf, hqf,
      pure, Except.pure]
  · intro rf hr htf
    rw [hq, hr]
    simp [fetchQuota, quotaOf, Bind.bind, Except.bind, objFields, htf,
      pure, Except.pure, alookup]
  · intro rf tf hr htf hqf
    rw [hq, hr]
    simp [fetchQuota, quotaOf, Bind.bind, Except.bind, objFields, htf, hqf,
      pure, Except.pure, alookup]

theorem quota_field_spec_witness : w6Pd.quota = Json.num 45 :=
  (quota_field_spec initState 0 w6Env (Key.num 20) w6Pd
      (List.mem_singleton.mpr rfl)).2.2.2.2.1
    [("time_restrictions", .obj [("quotas", .obj [("wed", .num 45)])])]
    [("quotas", .obj [("wed", .num 45)])]
    [("wed", .num 45)]
    rfl rfl rfl

/-- C7: for every profile snapshot in the mapping returned by `get_data`,
the time field equals `round(total / 60, 1)` (idealized to exact rationals,
round half to even at one decimal) where `total` is the sum of the
`screen_time_seconds` values over all entries of that profile's
hourly-summary response with missing values counting 0 (last conjunct); the
time is 0 when the hourly fetch raises, returns a non-200 status, its body
fails to parse, or the summation itself raises on malformed entries. -/
theorem time_field_spec (st : ClientState) (now : ℚ) (env : Env)
    (k : Key) (pd : ProfileData) (h : (k, pd) ∈ (get_data st now env).2) :
    pd.time = fetchTime (env.hourly pd.uid)
    ∧ (env.hourly pd.uid = Fetch.exn → pd.time = 0)
    ∧ (∀ s b, env.hourly pd.uid = Fetch.resp s b → s ≠ 200 → pd.time = 0)
    ∧ (∀ s, env.hourly pd.uid = Fetch.resp s (Except.error ()) → pd.time = 0)
    ∧ (∀ j t, env.hourly pd.uid = Fetch.resp 200 (Except.ok j) →
        sumScreenTime j = Except.ok t → pd.time = round1 (t / 60))
    ∧ (∀ j, env.hourly pd.uid = Fetch.resp 200 (Except.ok j) →
        (sumScreenTime j).isOk = false → pd.time = 0)
    ∧ (∀ (entries : List Json) (f : Json → ℚ),
        (∀ e ∈ entries, ∃ ef, e = Json.obj ef
          ∧ toNum ((alookup ef "screen_time_seconds").getD (Json.num 0))
              = Except.ok (f e)) →
        sumScreenTime (Json.arr entries) = Except.ok (entries.map f).sum) := by
  obtain ⟨pj, plist, hpj, hit, p, hp, c, hc, kk, hkk, hx⟩ :=
    getData_mem st now env (k, pd) h
  have hpd : pd = finishProfile c env.rules env.hourly (dayCode env.dow) :=
    congrArg Prod.snd hx
  have huid : pd.uid = c.uid := by rw [hpd]; rfl
  have ht : pd.time = fetchTime (env.hourly pd.uid) := by
    rw [huid, hpd]
    rfl
  refine ⟨ht, ?_, ?_, ?_, ?_, ?_, ?_⟩
  · intro hr
    rw [ht, hr]
    rfl
  · intro s b hr hs
    rw [ht, hr]
    simp [fetchTime, hs]
  · intro s hr
    rw [ht, hr]
    by_cases hs : s = 200
    · subst hs
      simp [fetchTime]
    · simp [fetchTime, hs]
  · intro j t hr hsum
    rw [ht, hr]
    simp [fetchTime, hsum]
  · intro j hr hsum
    rw [ht, hr]
    cases hs : sumScreenTime j with
    | error e => simp [fetchTime, hs]
    | ok t =>
      rw [hs] at hsum
      simp [Except.isOk, Except.toBool] at hsum
  · intro entries f hall
    have := sumFold_ok f entries hall 0
    simp only [sumScreenTime, iterElems, Bind.bind, Except.bind]
    rw [this]
    simp

theorem time_field_spec_witness :
    w7Pd.time = round1 ((0 + 90 + 0 + 30) / 60) :=
  (time_field_spec initState 0 w7Env (Key.num 30) w7Pd
      (List.mem_singleton.mpr rfl)).2.2.2.2.1
    (.arr [.obj [("screen_time_seconds", .num 90)], .obj [],
      .obj [("screen_time_seconds", .num 30)]])
    (0 + 90 + 0 + 30) rfl rfl

